import Mathlib

/-!
# Engine3V — verification of the analysis-fusion and risk-gated execution core

Shallow embedding of the 3V Engine trading system.  The repository's `src/`
tree contains the web dashboard (TypeScript/React); the Python core
(fusion engine, execution controller, orchestrator) is described by the
specification and the repository README but its source is not present,
so those parts are modelled from the spec (each such definition is marked
`Modelled from the spec:`).  Dashboard components are translated directly
from the TypeScript sources.

Numbers: TypeScript `number` values are modelled as `ℚ`; a JavaScript
`parseFloat` result that may be `NaN` is modelled as `Option ℚ` with
`none` for `NaN`.  JavaScript falsiness of `0`, `""`, `null`/`undefined`
is modelled explicitly by the `jsOr*` helpers.
-/

namespace Engine3V

/-! ## Data model (spec §3) -/

/-- Verdict of a fusion decision: ENTRY, HOLD or VETO (spec §3). -/
inductive Verdict where
  | ENTRY
  | HOLD
  | VETO
deriving DecidableEq, Repr

/-- Trade direction (spec §3); `Option Direction` models the nullable field. -/
inductive Direction where
  | LONG
  | SHORT
deriving DecidableEq, Repr

/-- Trading mode of the execution controller (spec §3). -/
inductive TradingMode where
  | AUTOMATIC
  | SIGNAL_ONLY
deriving DecidableEq, Repr

/-- Market bias shown on the dashboard when holding (spec §3). -/
inductive MarketBias where
  | Alta
  | Baixa
  | Lateralizado
deriving DecidableEq, Repr

/-- Canonical agent output (spec §3 `AgentSignal`): a label (enum-per-source,
kept as the string the dashboard receives, e.g. "BULLISH" / "HIGH_RISK"),
a strength, free reasoning text and the fallback marker. -/
structure AgentSignal where
  label : String
  strength : ℚ
  raw_reasoning : String
  is_fallback : Bool
deriving DecidableEq, Repr

/-- Fusion output (spec §3 `Decision`). -/
structure Decision where
  verdict : Verdict
  direction : Option Direction
  confidence : ℕ
  reasoning : String
  market_bias : MarketBias
deriving DecidableEq, Repr

/-! ## Fusion engine (spec §4.2), modelled from the spec -/

/-- Directional lean derived from one agent (spec §4.2 step 2). -/
inductive Lean3 where
  | bullish
  | bearish
  | neutral
deriving DecidableEq, Repr

/-- Sentiment threshold used by the dashboard (`ReasoningLog`): a score
above `0.3` is bullish, below `-0.3` bearish. -/
def sentimentThreshold : ℚ := 3 / 10

/-- Modelled from the spec: technical label mapped to a directional lean
(spec §4.2 step 2, labels from the dashboard: BULLISH/BEARISH/NEUTRAL). -/
def techLean (t : AgentSignal) : Lean3 :=
  if t.label = "BULLISH" then .bullish
  else if t.label = "BEARISH" then .bearish
  else .neutral

/-- Modelled from the spec: sentiment strength mapped to a directional lean
(spec §4.2 step 2: bullish above the positive threshold, bearish below the
negative threshold, neutral otherwise). -/
def sentLean (s : AgentSignal) : Lean3 :=
  if s.strength > sentimentThreshold then .bullish
  else if s.strength < -sentimentThreshold then .bearish
  else .neutral

/-- The fixed low confidence ceiling used for a macro veto (spec §4.2 step 1:
"a low fixed ceiling (e.g. ≤30)"). -/
def vetoConfidence : ℕ := 30

/-- The reduced ceiling applied when any input is a fallback signal
(spec §4.2 step 3). -/
def fallbackCeiling : ℕ := 50

/-- Modelled from the spec: base confidence from the magnitude of agreement
(spec §4.2 step 3: stronger technical and sentiment magnitudes raise it
monotonically; clamped to [0,100]). -/
def baseConfidence (t s : AgentSignal) : ℕ :=
  min 100 (50 + (25 * |t.strength| + 25 * |s.strength|).floor.toNat)

/-- Modelled from the spec: the market bias mirrors the directional lean
as Alta/Baixa/Lateralizado (spec §4.2 step 4). -/
def biasOfLeans (tl sl : Lean3) : MarketBias :=
  match tl, sl with
  | .bullish, .bullish => .Alta
  | .bearish, .bearish => .Baixa
  | .bullish, .neutral => .Alta
  | .neutral, .bullish => .Alta
  | .bearish, .neutral => .Baixa
  | .neutral, .bearish => .Baixa
  | _, _ => .Lateralizado

/-- Modelled from the spec: the fusion engine `fuse(technical, sentiment,
macro) -> Decision` (spec §4.2; `agents/risk_commander.py` is not under
`src/`).  Rule 1: macro label HIGH_RISK vetoes unconditionally with null
direction and the low fixed confidence ceiling.  Rule 2: technical and
sentiment leans agreeing on a non-neutral direction give ENTRY with that
direction, otherwise HOLD with null direction.  Rule 3: confidence from
magnitude of agreement, capped by the reduced ceiling when any input is a
fallback.  Rule 5: the reasoning text deterministically names the rule. -/
def fuse (technical sentiment macroSig : AgentSignal) : Decision :=
  if macroSig.label = "HIGH_RISK" then
    { verdict := .VETO
      direction := none
      confidence := vetoConfidence
      reasoning := "macro veto: high-impact macro event (" ++ macroSig.label ++ ")"
      market_bias := .Lateralizado }
  else
    let tl := techLean technical
    let sl := sentLean sentiment
    let anyFallback :=
      technical.is_fallback || sentiment.is_fallback || macroSig.is_fallback
    let conf0 := baseConfidence technical sentiment
    let conf := if anyFallback then min conf0 fallbackCeiling else conf0
    match tl, sl with
    | .bullish, .bullish =>
        { verdict := .ENTRY
          direction := some .LONG
          confidence := conf
          reasoning := "directional agreement: technical " ++ technical.label
            ++ " and sentiment bullish -> ENTRY LONG"
          market_bias := .Alta }
    | .bearish, .bearish =>
        { verdict := .ENTRY
          direction := some .SHORT
          confidence := conf
          reasoning := "directional agreement: technical " ++ technical.label
            ++ " and sentiment bearish -> ENTRY SHORT"
          market_bias := .Baixa }
    | tl, sl =>
        { verdict := .HOLD
          direction := none
          confidence := conf
          reasoning := "no directional agreement: HOLD"
          market_bias := biasOfLeans tl sl }

/-! ## Execution controller (spec §4.4), modelled from the spec -/

/-- Trading configuration (spec §3 `TradingConfig`). -/
structure TradingConfig where
  mode : TradingMode
  risk_per_trade_pct : ℚ
  max_daily_loss_pct : ℚ
deriving DecidableEq, Repr

/-- Account mode reported by the broker (spec §3). -/
inductive AccountMode where
  | LIVE
  | SIMULATION
deriving DecidableEq, Repr

/-- Read-only account snapshot (spec §3 `AccountState`). -/
structure AccountState where
  balance : ℚ
  equity : ℚ
  daily_pnl : ℚ
  daily_pnl_pct : ℚ
  open_positions_count : ℕ
  mode : AccountMode
deriving DecidableEq, Repr

/-- Status of a persisted execution record (spec §3). -/
inductive RecordStatus where
  | OPEN
  | CLOSED
  | FAILED
deriving DecidableEq, Repr

/-- Persisted order attempt (spec §3 `ExecutionRecord`). -/
structure ExecutionRecord where
  id : ℕ
  ticket : ℕ
  symbol : String
  direction : Direction
  volume : ℚ
  entry_price : ℚ
  stop_loss : ℚ
  take_profit : ℚ
  profit : ℚ
  status : RecordStatus
  mode : AccountMode
  created_at : ℕ
deriving DecidableEq, Repr

/-- Outcome of one order-submission attempt at the broker collaborator
(spec §4.4 step 5, §6): filled with a ticket, the collaborator is
unavailable (unsupported host platform → simulation), or it errors. -/
inductive BrokerOutcome where
  | filled (ticket : ℕ)
  | unavailable
  | failed
deriving DecidableEq, Repr

/-- Categorical outcome of one `execute` call: no execution (signal-only
mode or non-ENTRY verdict), a forced HOLD from the risk circuit breaker
(spec §4.4 step 3), or an attempted order. -/
inductive ExecOutcome where
  | noExecution
  | forcedHold
  | executed
deriving DecidableEq, Repr

/-- Result of the execution controller: the optional persisted record
(`execute(...) -> ExecutionRecord | null`, spec §4.4), the outcome
category, and the paused-automation flag raised by a risk breach. -/
structure ExecResult where
  record : Option ExecutionRecord
  outcome : ExecOutcome
  automationPaused : Bool
deriving DecidableEq, Repr

/-- Market-side inputs of one execution attempt: the instrument, current
price, configured stop/take distances (spec §4.4 step 4), the broker
collaborator's response and the current timestamp. -/
structure MarketContext where
  symbol : String
  current_price : ℚ
  stop_distance : ℚ
  tp_distance : ℚ
  broker : BrokerOutcome
  now : ℕ
deriving DecidableEq, Repr

/-- Synthetic ticket used when the broker is unavailable and the order is
only simulated (spec §4.4 step 5). -/
def syntheticTicket : ℕ := 999999

/-- Modelled from the spec: position sizing, exit levels and order
submission (spec §4.4 steps 4–6; the Python execution controller is not
under `src/`).  Volume is the risk amount divided by the stop distance;
stop-loss and take-profit are placed at the configured distances from the
current price; an unavailable broker yields a SIMULATION record with a
synthetic ticket and a broker error a FAILED record — a record is always
produced once the gates have passed (step 6). -/
def buildRecord (d : Decision) (cfg : TradingConfig) (acct : AccountState)
    (mkt : MarketContext) : ExecutionRecord :=
  let dir := d.direction.getD .LONG
  let volume := (cfg.risk_per_trade_pct / 100 * acct.balance) / mkt.stop_distance
  let entry := mkt.current_price
  let sl := match dir with
    | .LONG => entry - mkt.stop_distance
    | .SHORT => entry + mkt.stop_distance
  let tp := match dir with
    | .LONG => entry + mkt.tp_distance
    | .SHORT => entry - mkt.tp_distance
  match mkt.broker with
  | .filled t =>
      ⟨0, t, mkt.symbol, dir, volume, entry, sl, tp, 0, .OPEN, .LIVE, mkt.now⟩
  | .unavailable =>
      ⟨0, syntheticTicket, mkt.symbol, dir, volume, entry, sl, tp, 0, .OPEN,
        .SIMULATION, mkt.now⟩
  | .failed =>
      ⟨0, 0, mkt.symbol, dir, volume, entry, sl, tp, 0, .FAILED, .LIVE, mkt.now⟩

/-- Modelled from the spec: the execution controller
`execute(decision, config, account) -> ExecutionRecord | null`
(spec §4.4; the Python controller is not under `src/`).  Gate sequence,
short-circuiting in order: (1) automatic mode, (2) ENTRY verdict,
(3) daily-loss circuit breaker `daily_pnl_pct <= -max_daily_loss_pct`
forcing a HOLD with paused automation and no order; past the gates an
order is attempted and a record always produced. -/
def execute (d : Decision) (cfg : TradingConfig) (acct : AccountState)
    (mkt : MarketContext) : ExecResult :=
  if cfg.mode = .AUTOMATIC then
    if d.verdict = .ENTRY then
      if acct.daily_pnl_pct ≤ -cfg.max_daily_loss_pct then
        { record := none, outcome := .forcedHold, automationPaused := true }
      else
        { record := some (buildRecord d cfg acct mkt)
          outcome := .executed
          automationPaused := false }
    else
      { record := none, outcome := .noExecution, automationPaused := false }
  else
    { record := none, outcome := .noExecution, automationPaused := false }

/-- One cycle's persisted artifacts: the single fused decision and the
execution result (spec §3 invariant, §4.3). -/
structure CycleResult where
  decision : Decision
  execution : ExecResult
deriving DecidableEq, Repr

/-- Modelled from the spec: one full cycle after the three agent signals
have joined (spec §2, §4.3): the fusion engine produces exactly one
`Decision`, which is handed to the execution controller. -/
def runCycle (technical sentiment macroSig : AgentSignal)
    (cfg : TradingConfig) (acct : AccountState) (mkt : MarketContext) :
    CycleResult :=
  let d := fuse technical sentiment macroSig
  { decision := d, execution := execute d cfg acct mkt }

/-! ## JavaScript value helpers -/

/-- JavaScript `a || b` on an optional number: `none` models
`undefined`/`NaN`, and `0` is falsy. -/
def jsOrQ (v : Option ℚ) (dflt : ℚ) : ℚ :=
  match v with
  | none => dflt
  | some x => if x = 0 then dflt else x

/-- JavaScript `a || b` on an optional string, with the empty string falsy. -/
def jsOrS (v : Option String) (dflt : String) : String :=
  match v with
  | none => dflt
  | some s => if s = "" then dflt else s

/-- JavaScript `a || b` where both sides may be `undefined`; the empty
string is falsy. -/
def jsOrOptS (a b : Option String) : Option String :=
  match a with
  | none => b
  | some s => if s = "" then b else some s

/-- JavaScript `a || b` where both sides may be `undefined`; `0` is falsy. -/
def jsOrOptQ (a b : Option ℚ) : Option ℚ :=
  match a with
  | none => b
  | some x => if x = 0 then b else some x

/-- JavaScript `s || null` on a string: the empty string becomes `null`. -/
def jsOrNullS (s : String) : Option String :=
  if s = "" then none else some s

/-! ## Trading configuration surface (spec §6 and the admin dashboard) -/

/-- Trading configuration as the admin dashboard holds it
(`web-dashboard/src/app/admin/trading/page.tsx`, interface
`TradingConfig`). -/
structure DashTradingConfig where
  trading_mode : TradingMode
  risk_per_trade : ℚ
  max_daily_loss : ℚ
deriving DecidableEq, Repr

/-- Percentage validity per spec §6: in the half-open interval (0,100]. -/
def validPct (x : ℚ) : Bool :=
  decide (0 < x) && decide (x ≤ 100)

/-- Modelled from the spec: the configuration set endpoint (spec §6; the
backend `POST /admin/trading` handler is not under `src/`):
`risk_per_trade` and `max_daily_loss` are validated to lie in (0,100]
before acceptance; an invalid update is rejected and the stored
configuration kept unchanged.  Returns the stored configuration after the
call and whether the update was accepted. -/
def applyConfigUpdate (stored req : DashTradingConfig) :
    DashTradingConfig × Bool :=
  if validPct req.risk_per_trade && validPct req.max_daily_loss then
    (req, true)
  else
    (stored, false)

/-- The admin form's max-daily-loss `onChange` handler
(`admin/trading/page.tsx` line 270):
`setConfig({...config, max_daily_loss: parseFloat(e.target.value) || 3})`.
`parsed` is the `parseFloat` result, `none` for `NaN`. -/
def onMaxDailyLossChange (cfg : DashTradingConfig) (parsed : Option ℚ) :
    DashTradingConfig :=
  { cfg with max_daily_loss := jsOrQ parsed 3 }

/-- The admin form's risk-per-trade slider `onChange` handler
(`admin/trading/page.tsx` line 240):
`setConfig({...config, risk_per_trade: parseFloat(e.target.value)})`.
A range input always reports a numeric value. -/
def onRiskPerTradeChange (cfg : DashTradingConfig) (parsed : ℚ) :
    DashTradingConfig :=
  { cfg with risk_per_trade := parsed }

/-! ## Confidence gauges (C6 sources) -/

/-- The clamp in `ModernConfidenceGauge`
(`web-dashboard/src/components/ModernConfidenceGauge.tsx` line 13):
`Math.min(100, Math.max(0, confidence))`. -/
def clampedConfidence (c : ℚ) : ℚ :=
  min 100 (max 0 c)

/-- Render data of `ModernConfidenceGauge` (ModernConfidenceGauge.tsx):
the displayed percentage is the clamped confidence; stroke colour, label
and the three breakdown rows are derived from it. -/
structure ModernGaugeRender where
  displayed : ℚ
  stroke : String
  confLabel : String
  techRow : ℚ
  sentRow : ℚ
  macroRow : ℚ
deriving DecidableEq, Repr

/-- `ModernConfidenceGauge` translated from
`web-dashboard/src/components/ModernConfidenceGauge.tsx`. -/
def modernConfidenceGaugeRender (confidence : ℚ) : ModernGaugeRender :=
  let cc := clampedConfidence confidence
  { displayed := cc
    stroke :=
      if cc ≥ 70 then "#22c55e"
      else if cc ≥ 50 then "#f59e0b"
      else "#64748b"
    confLabel :=
      if cc ≥ 80 then "Muito Alta"
      else if cc ≥ 60 then "Alta"
      else if cc ≥ 40 then "Moderada"
      else "Baixa"
    techRow := min 100 (cc + 10)
    sentRow := max 0 (cc - 10)
    macroRow := cc }

/-- Render data of the legacy `ConfidenceGauge`. -/
structure GaugeRender where
  displayed : ℚ
  stroke : String
deriving DecidableEq, Repr

/-- The legacy `ConfidenceGauge` translated from
`web-dashboard/src/components/AITerminal.tsx` (second component, lines
137–196): it displays `{confidence}%` and picks a colour from the raw
`confidence` value — no clamping is applied anywhere. -/
def confidenceGaugeRender (confidence : ℚ) : GaugeRender :=
  { displayed := confidence
    stroke :=
      if confidence ≥ 80 then "#10b981"
      else if confidence ≥ 60 then "#f59e0b"
      else "#ef4444" }

/-! ## Sentiment classification on the dashboard (C7 source) -/

/-- Classification outcome used for the sentiment cell colouring. -/
inductive SentimentClass where
  | bullish
  | bearish
  | neutral
deriving DecidableEq, Repr

/-- The sentiment-score classification of `ReasoningLog`
(`src/unnamed/part_003` lines 365–373): green (bullish) when the score
exceeds `0.3`, red (bearish) when below `-0.3`, neutral grey otherwise. -/
def classifySentiment (score : ℚ) : SentimentClass :=
  if score > 3 / 10 then .bullish
  else if score < -(3 / 10) then .bearish
  else .neutral

/-- The same classification on the optional score the component receives:
`(inputs.sentiment?.score ?? 0)` defaults a missing score to `0`. -/
def classifySentimentOpt (score : Option ℚ) : SentimentClass :=
  classifySentiment (score.getD 0)

/-! ## SmartSignalCard (C8 source) -/

/-- The two alternative detail panels the card can render. -/
inductive CardPanel where
  | marketBias
  | priceLevels
deriving DecidableEq, Repr

/-- `isHold` of `SmartSignalCard` (`src/unnamed/part_001` line 28):
`!decision || decision === "HOLD"`.  A `null` decision and the empty
string are both falsy in JavaScript. -/
def smartCardIsHold (decision : Option String) : Bool :=
  (match decision with
   | none => true
   | some s => s = "") || decision == some "HOLD"

/-- The detail panel chosen by `SmartSignalCard` (`src/unnamed/part_001`
lines 111–163): the market-bias panel when `isHold`, otherwise the
entry/take-profit/stop-loss price panel. -/
def smartCardPanel (decision : Option String) : CardPanel :=
  if smartCardIsHold decision then .marketBias else .priceLevels

/-! ## Dashboard decision parsing (C9 source) -/

/-- `s.split("_")[0]`: the characters of `s` before the first `'_'`
(the whole string when `'_'` does not occur). -/
def splitHead (s : String) : String :=
  String.mk (s.data.takeWhile (fun c => c != '_'))

/-- JavaScript `s.includes(pat)` as substring containment on the
character lists. -/
def containsSub (s pat : String) : Bool :=
  decide (List.IsInfix pat.data s.data)

/-- The displayed decision of the dashboard
(`web-dashboard/src/app/page.tsx` line 77):
`lastAnalysis?.final_decision?.split("_")[0] || null`. -/
def displayedDecision (finalDecision : Option String) : Option String :=
  match finalDecision with
  | none => none
  | some s => jsOrNullS (splitHead s)

/-- The displayed direction of the dashboard (`page.tsx` lines 78–79):
`final_decision?.includes("LONG") ? "LONG" :
 final_decision?.includes("SHORT") ? "SHORT" : null`
(an absent `final_decision` makes both conditions falsy). -/
def displayedDirection (finalDecision : Option String) : Option String :=
  match finalDecision with
  | none => none
  | some s =>
      if containsSub s "LONG" then some "LONG"
      else if containsSub s "SHORT" then some "SHORT"
      else none

/-- The displayed confidence of the dashboard (`page.tsx` line 80):
`lastAnalysis?.reasoning?.confidence || 0`. -/
def displayedConfidence (confidence : Option ℚ) : ℚ :=
  jsOrQ confidence 0

/-! ## Signal-history API route (C10 source)

`web-dashboard/src/app/api/signal-history/route.ts`: the handler queries
the `execution_log` table for rows with `type = "TRADE"` and
`status = "CLOSED"`, ordered by `created_at` descending, limited to 10,
transforms them for the frontend, and returns HTTP 500 with the error
message on a database error.  `created_at` timestamps are modelled as
naturals; the nested `data` JSON object is flattened into optional
fields (`none` when `data` or the key is absent). -/

/-- A row of the `execution_log` table, restricted to the columns the
route selects (`id, created_at, type, direction, status, profit,
entry_price, ticket, data`). -/
structure ExecRow where
  id : ℕ
  created_at : ℕ
  ty : String
  direction : Option String
  status : String
  profit : Option ℚ
  entry_price : Option ℚ
  ticket : Option ℕ
  dataPair : Option String
  dataSymbol : Option String
  dataDirection : Option String
  dataEntryPrice : Option ℚ
  dataClosePrice : Option ℚ
deriving DecidableEq, Repr

/-- The shape the route returns for each trade. -/
structure TradeOut where
  id : ℕ
  created_at : ℕ
  pair : String
  direction : String
  status : String
  profit : ℚ
  entry_price : Option ℚ
  close_price : Option ℚ
deriving DecidableEq, Repr

/-- The row filter of the Supabase query:
`.eq("type", "TRADE").eq("status", "CLOSED")`. -/
def matchesFilter (r : ExecRow) : Bool :=
  r.ty == "TRADE" && r.status == "CLOSED"

/-- Insertion step of the descending sort on `created_at`
(`.order("created_at", { ascending: false })`). -/
def insertDesc (r : ExecRow) : List ExecRow → List ExecRow
  | [] => [r]
  | x :: xs =>
      if x.created_at ≤ r.created_at then r :: x :: xs
      else x :: insertDesc r xs

/-- Descending insertion sort on `created_at`. -/
def sortDesc : List ExecRow → List ExecRow
  | [] => []
  | x :: xs => insertDesc x (sortDesc xs)

/-- The database query of the route (route.ts lines 13–19): filter on
type/status, order by `created_at` descending, `limit(10)`. -/
def signalHistoryQuery (tbl : List ExecRow) : List ExecRow :=
  (sortDesc (tbl.filter matchesFilter)).take 10

/-- The per-row transformation of the route (route.ts lines 28–37):
`pair: trade.data?.pair || trade.data?.symbol || "EUR/USD"`,
`direction: trade.direction || trade.data?.direction || "LONG"`,
`profit: trade.profit || 0`,
`entry_price: trade.entry_price || trade.data?.entry_price`,
`close_price: trade.data?.close_price`. -/
def transformTrade (r : ExecRow) : TradeOut :=
  { id := r.id
    created_at := r.created_at
    pair := jsOrS (jsOrOptS r.dataPair r.dataSymbol) "EUR/USD"
    direction := jsOrS (jsOrOptS r.direction r.dataDirection) "LONG"
    status := r.status
    profit := jsOrQ r.profit 0
    entry_price := jsOrOptQ r.entry_price r.dataEntryPrice
    close_price := r.dataClosePrice }

/-- Response of the route: either a JSON body with a `trades` array, or
an error status with a message and no trades array. -/
inductive SignalHistoryResponse where
  | ok (trades : List TradeOut)
  | err (httpStatus : ℕ) (msg : String)
deriving DecidableEq, Repr

/-- The GET handler of `/api/signal-history` (route.ts lines 9–47).  The
database outcome is either the table contents or an error message; an
error is returned as HTTP 500 with the message (route.ts line 23). -/
def signalHistoryGET (db : Except String (List ExecRow)) :
    SignalHistoryResponse :=
  match db with
  | .error e => .err 500 e
  | .ok tbl => .ok ((signalHistoryQuery tbl).map transformTrade)

/-- The trades carried by a response (`[]` for an error response, which
has no trades array). -/
def responseTrades : SignalHistoryResponse → List TradeOut
  | .ok trades => trades
  | .err _ _ => []

/-! ## Helper lemmas -/

/-- Membership after one descending insertion. -/
theorem mem_insertDesc {x r : ExecRow} {l : List ExecRow}
    (h : x ∈ insertDesc r l) : x = r ∨ x ∈ l := by
  induction l with
  | nil => simpa [insertDesc] using h
  | cons a as ih =>
    unfold insertDesc at h
    by_cases hle : a.created_at ≤ r.created_at
    · rw [if_pos hle] at h
      simpa using h
    · rw [if_neg hle] at h
      rcases List.mem_cons.mp h with h1 | h2
      · exact Or.inr (by simp [h1])
      · rcases ih h2 with h3 | h4
        · exact Or.inl h3
        · exact Or.inr (List.mem_cons_of_mem _ h4)

/-- Membership is preserved by the descending sort. -/
theorem mem_sortDesc {x : ExecRow} {l : List ExecRow}
    (h : x ∈ sortDesc l) : x ∈ l := by
  induction l with
  | nil => simp [sortDesc] at h
  | cons a as ih =>
    unfold sortDesc at h
    rcases mem_insertDesc h with h1 | h2
    · simp [h1]
    · exact List.mem_cons_of_mem _ (ih h2)

/-- Descending insertion preserves the descending-`created_at` chain. -/
theorem pairwise_insertDesc {r : ExecRow} {l : List ExecRow}
    (h : l.Pairwise (fun a b => b.created_at ≤ a.created_at)) :
    (insertDesc r l).Pairwise (fun a b => b.created_at ≤ a.created_at) := by
  induction l with
  | nil => simp [insertDesc]
  | cons a as ih =>
    rw [List.pairwise_cons] at h
    obtain ⟨ha, has⟩ := h
    unfold insertDesc
    by_cases hle : a.created_at ≤ r.created_at
    · rw [if_pos hle]
      refine List.pairwise_cons.mpr ⟨?_, List.pairwise_cons.mpr ⟨ha, has⟩⟩
      intro y hy
      rcases List.mem_cons.mp hy with h1 | h2
      · rw [h1]; exact hle
      · exact le_trans (ha y h2) hle
    · rw [if_neg hle]
      refine List.pairwise_cons.mpr ⟨?_, ih has⟩
      intro y hy
      rcases mem_insertDesc hy with h1 | h2
      · rw [h1]; exact le_of_not_le hle
      · exact ha y h2

/-- The descending sort yields a descending-`created_at` chain. -/
theorem pairwise_sortDesc (l : List ExecRow) :
    (sortDesc l).Pairwise (fun a b => b.created_at ≤ a.created_at) := by
  induction l with
  | nil => simp [sortDesc]
  | cons a as ih => exact pairwise_insertDesc ih

/-! ## Claim theorems -/

/-- C1: for every input triple in which the macro signal's label is the
high-risk category, `fuse` returns a decision with verdict VETO, null
direction and confidence at most the low fixed ceiling 30, regardless of
the technical and sentiment signal values. -/
theorem fuse_macro_veto (technical sentiment macroSig : AgentSignal)
    (h : macroSig.label = "HIGH_RISK") :
    (fuse technical sentiment macroSig).verdict = .VETO ∧
    (fuse technical sentiment macroSig).direction = none ∧
    (fuse technical sentiment macroSig).confidence ≤ 30 := by
  unfold fuse
  rw [if_pos h]
  exact ⟨rfl, rfl, Nat.le_refl 30⟩

/-- C1 witness: a strongly bullish technical and sentiment pair is still
vetoed by a HIGH_RISK macro signal. -/
theorem fuse_macro_veto_witness :
    (fuse ⟨"BULLISH", 4/5, "ma crossover", false⟩
        ⟨"NEWS", 3/5, "headline sentiment", false⟩
        ⟨"HIGH_RISK", 1, "nfp release", false⟩).verdict = .VETO ∧
    (fuse ⟨"BULLISH", 4/5, "ma crossover", false⟩
        ⟨"NEWS", 3/5, "headline sentiment", false⟩
        ⟨"HIGH_RISK", 1, "nfp release", false⟩).direction = none ∧
    (fuse ⟨"BULLISH", 4/5, "ma crossover", false⟩
        ⟨"NEWS", 3/5, "headline sentiment", false⟩
        ⟨"HIGH_RISK", 1, "nfp release", false⟩).confidence ≤ 30 :=
  fuse_macro_veto _ _ _ rfl

/-- C2: whenever the verdict is ENTRY and the mode AUTOMATIC, a daily
loss at or beyond the configured limit (inclusive boundary) yields no
order, a forced HOLD outcome and a paused-automation flag. -/
theorem execute_circuit_breaker (d : Decision) (cfg : TradingConfig)
    (acct : AccountState) (mkt : MarketContext)
    (hv : d.verdict = .ENTRY) (hm : cfg.mode = .AUTOMATIC)
    (hb : acct.daily_pnl_pct ≤ -cfg.max_daily_loss_pct) :
    (execute d cfg acct mkt).record = none ∧
    (execute d cfg acct mkt).outcome = .forcedHold ∧
    (execute d cfg acct mkt).automationPaused = true := by
  unfold execute
  rw [if_pos hm, if_pos hv, if_pos hb]
  exact ⟨rfl, rfl, rfl⟩

/-- C2 witness: at the exact boundary `daily_pnl_pct = -3` with
`max_daily_loss_pct = 3`, an AUTOMATIC ENTRY yields no record, a forced
HOLD and paused automation. -/
theorem execute_circuit_breaker_witness :
    (execute ⟨.ENTRY, some .LONG, 80, "entry long", .Alta⟩
        ⟨.AUTOMATIC, 1, 3⟩ ⟨10000, 9700, -300, -3, 0, .LIVE⟩
        ⟨"EURUSD", 1085/1000, 5/1000, 5/1000, .filled 42, 0⟩).record = none ∧
    (execute ⟨.ENTRY, some .LONG, 80, "entry long", .Alta⟩
        ⟨.AUTOMATIC, 1, 3⟩ ⟨10000, 9700, -300, -3, 0, .LIVE⟩
        ⟨"EURUSD", 1085/1000, 5/1000, 5/1000, .filled 42, 0⟩).outcome
      = .forcedHold ∧
    (execute ⟨.ENTRY, some .LONG, 80, "entry long", .Alta⟩
        ⟨.AUTOMATIC, 1, 3⟩ ⟨10000, 9700, -300, -3, 0, .LIVE⟩
        ⟨"EURUSD", 1085/1000, 5/1000, 5/1000, .filled 42, 0⟩).automationPaused
      = true :=
  execute_circuit_breaker _ _ _ _ rfl rfl (by norm_num)

/-- C3: each cycle produces exactly the one decision computed by `fuse`,
and the execution record exists iff the verdict is ENTRY, the mode is
AUTOMATIC and the daily-loss circuit breaker is not tripped. -/
theorem cycle_record_iff (technical sentiment macroSig : AgentSignal)
    (cfg : TradingConfig) (acct : AccountState) (mkt : MarketContext) :
    (runCycle technical sentiment macroSig cfg acct mkt).decision
      = fuse technical sentiment macroSig ∧
    ((runCycle technical sentiment macroSig cfg acct mkt).execution.record.isSome
      ↔ ((fuse technical sentiment macroSig).verdict = .ENTRY ∧
          cfg.mode = .AUTOMATIC ∧
          ¬ acct.daily_pnl_pct ≤ -cfg.max_daily_loss_pct)) := by
  refine ⟨rfl, ?_⟩
  show (execute (fuse technical sentiment macroSig) cfg acct mkt).record.isSome
      ↔ _
  unfold execute
  split_ifs with hm hv hb <;> simp_all

/-- C5: `fuse` is a pure function of its three signals — identical input
triples give identical decisions. -/
theorem fuse_deterministic (t₁ s₁ m₁ t₂ s₂ m₂ : AgentSignal)
    (ht : t₁ = t₂) (hs : s₁ = s₂) (hm : m₁ = m₂) :
    fuse t₁ s₁ m₁ = fuse t₂ s₂ m₂ := by
  subst ht; subst hs; subst hm; rfl

/-- C5 witness: two calls on one concrete triple agree. -/
theorem fuse_deterministic_witness :
    fuse ⟨"BULLISH", 4/5, "ma crossover", false⟩
        ⟨"NEWS", 3/5, "headline sentiment", false⟩
        ⟨"LOW_RISK", 0, "calendar clear", false⟩
      = fuse ⟨"BULLISH", 4/5, "ma crossover", false⟩
        ⟨"NEWS", 3/5, "headline sentiment", false⟩
        ⟨"LOW_RISK", 0, "calendar clear", false⟩ :=
  fuse_deterministic _ _ _ _ _ _ rfl rfl rfl

/-- C4 counterexample: `0` entered for the daily-loss limit is outside
(0,100], yet the admin form's handler (`parseFloat(...) || 3`) silently
replaces it with the default `3` instead of rejecting it — the resulting
configuration is neither the previous value `5` nor a rejection. -/
theorem config_default_substitution_cex :
    validPct 0 = false ∧
    onMaxDailyLossChange ⟨.SIGNAL_ONLY, 1, 5⟩ (some 0)
      = ⟨.SIGNAL_ONLY, 1, 3⟩ ∧
    onMaxDailyLossChange ⟨.SIGNAL_ONLY, 1, 5⟩ (some 0)
      ≠ ⟨.SIGNAL_ONLY, 1, 5⟩ := by
  refine ⟨by decide, ?_, ?_⟩ <;> simp [onMaxDailyLossChange, jsOrQ]

/-- C4 (amended): at the modelled configuration boundary an update with
`risk_per_trade` or `max_daily_loss` outside (0,100] is rejected and the
stored configuration kept unchanged; the admin form's max-daily-loss
number input, however, silently substitutes the default `3` before any
update is sent whenever the typed value parses to `0` or `NaN`. -/
theorem config_validation_amended (stored req : DashTradingConfig)
    (h : validPct req.risk_per_trade = false ∨
         validPct req.max_daily_loss = false) :
    applyConfigUpdate stored req = (stored, false) ∧
    onMaxDailyLossChange stored (some 0)
      = { stored with max_daily_loss := 3 } ∧
    onMaxDailyLossChange stored none
      = { stored with max_daily_loss := 3 } := by
  refine ⟨?_, ?_, ?_⟩
  · rcases h with h | h <;> simp [applyConfigUpdate, h]
  · simp [onMaxDailyLossChange, jsOrQ]
  · simp [onMaxDailyLossChange, jsOrQ]

/-- C4 witness: a requested `max_daily_loss` of 150 (outside (0,100]) is
rejected and the stored configuration survives unchanged. -/
theorem config_validation_amended_witness :
    (validPct (150 : ℚ) = false ∨ validPct (150 : ℚ) = false) ∧
    (applyConfigUpdate ⟨.SIGNAL_ONLY, 1, 5⟩ ⟨.AUTOMATIC, 2, 150⟩
        = (⟨.SIGNAL_ONLY, 1, 5⟩, false) ∧
      onMaxDailyLossChange ⟨.SIGNAL_ONLY, 1, 5⟩ (some 0)
        = { trading_mode := .SIGNAL_ONLY, risk_per_trade := 1,
            max_daily_loss := 3 } ∧
      onMaxDailyLossChange ⟨.SIGNAL_ONLY, 1, 5⟩ none
        = { trading_mode := .SIGNAL_ONLY, risk_per_trade := 1,
            max_daily_loss := 3 }) :=
  ⟨Or.inr (by decide),
    config_validation_amended ⟨.SIGNAL_ONLY, 1, 5⟩ ⟨.AUTOMATIC, 2, 150⟩
      (Or.inr (by decide))⟩

/-- C6 counterexample: the legacy `ConfidenceGauge` renders the raw
confidence value — at input 150 it displays 150, not
`min(100, max(0, 150)) = 100`. -/
theorem confidenceGauge_unclamped_cex :
    (confidenceGaugeRender 150).displayed = 150 ∧
    clampedConfidence 150 = 100 ∧
    (confidenceGaugeRender 150).displayed ≠ clampedConfidence 150 := by
  refine ⟨rfl, ?_, ?_⟩ <;>
    simp [confidenceGaugeRender, clampedConfidence] <;> norm_num

/-- C6 (amended): `ModernConfidenceGauge` renders
`min(100, max(0, confidence))`, which lies in [0,100] for every numeric
input; the legacy `ConfidenceGauge` renders the raw value unclamped. -/
theorem modernGauge_clamped (c : ℚ) :
    (modernConfidenceGaugeRender c).displayed = min 100 (max 0 c) ∧
    0 ≤ (modernConfidenceGaugeRender c).displayed ∧
    (modernConfidenceGaugeRender c).displayed ≤ 100 ∧
    (confidenceGaugeRender c).displayed = c :=
  ⟨rfl, le_min (by norm_num) (le_max_left 0 c), min_le_left _ _, rfl⟩

/-- C7: the dashboard classifies a sentiment score as bullish exactly
when it exceeds 0.3, bearish exactly when it is below -0.3, and neutral
otherwise. -/
theorem sentiment_threshold_mapping (score : ℚ) :
    (classifySentiment score = .bullish ↔ score > 3 / 10) ∧
    (classifySentiment score = .bearish ↔ score < -(3 / 10)) ∧
    (classifySentiment score = .neutral ↔
      (¬ score > 3 / 10 ∧ ¬ score < -(3 / 10))) := by
  unfold classifySentiment
  by_cases h1 : score > 3 / 10
  · have h2 : ¬ score < -(3 / 10) := by linarith
    simp [h1, h2]
  · by_cases h2 : score < -(3 / 10)
    · simp [h1, h2]
    · simp [h1, h2]

/-- C8 counterexample: the empty-string decision is falsy in JavaScript,
so `SmartSignalCard` renders the market-bias panel for it although it is
neither `null` nor `"HOLD"`; `"VETO"` does render the price panel. -/
theorem smartCard_empty_decision_cex :
    smartCardPanel (some "") = .marketBias ∧
    (some "" : Option String) ≠ none ∧
    ("" : String) ≠ "HOLD" ∧
    smartCardPanel (some "VETO") = .priceLevels := by
  refine ⟨rfl, by simp, by decide, ?_⟩
  simp [smartCardPanel, smartCardIsHold]

/-- C8 (amended): `SmartSignalCard` renders the market-bias panel iff the
decision is null, the empty string, or `"HOLD"`; every other decision
value (including `"VETO"`) renders the entry/take-profit/stop-loss price
panel instead. -/
theorem smartCard_panel_amended (decision : Option String) :
    (smartCardPanel decision = .marketBias ↔
      (decision = none ∨ decision = some "" ∨ decision = some "HOLD")) ∧
    (smartCardPanel decision = .priceLevels ↔
      ¬ (decision = none ∨ decision = some "" ∨ decision = some "HOLD")) := by
  match decision with
  | none => simp [smartCardPanel, smartCardIsHold]
  | some s =>
    by_cases h1 : s = ""
    · subst h1; simp [smartCardPanel, smartCardIsHold]
    · by_cases h2 : s = "HOLD"
      · subst h2; simp [smartCardPanel, smartCardIsHold]
      · simp [smartCardPanel, smartCardIsHold, h1, h2]

/-- C9 counterexample: for `final_decision = "_LONG"` the prefix before
the first `"_"` is the empty string, which is falsy, so the dashboard
displays `null` — not the prefix the claim requires — although `"_LONG"`
is neither empty nor absent. -/
theorem displayedDecision_cex :
    splitHead "_LONG" = "" ∧
    displayedDecision (some "_LONG") = none ∧
    ("_LONG" : String) ≠ "" ∧
    displayedDecision (some "_LONG") ≠ some (splitHead "_LONG") := by
  refine ⟨rfl, rfl, by decide, by decide⟩

/-- C9 (amended): the displayed decision equals the part of
`final_decision` before the first `"_"` when that part is non-empty, and
`null` when it is empty (string empty, absent, or starting with `"_"`);
the displayed direction is `"LONG"` exactly when the string contains
`"LONG"`, else `"SHORT"` exactly when it contains `"SHORT"`, else null;
a missing confidence is rendered as 0. -/
theorem dashboard_parsing_amended (s : String) :
    displayedDecision none = none ∧
    (displayedDecision (some s) =
      if splitHead s = "" then none else some (splitHead s)) ∧
    (displayedDirection (some s) = some "LONG" ↔ containsSub s "LONG" = true) ∧
    (displayedDirection (some s) = some "SHORT" ↔
      (containsSub s "LONG" = false ∧ containsSub s "SHORT" = true)) ∧
    (displayedDirection (some s) = none ↔
      (containsSub s "LONG" = false ∧ containsSub s "SHORT" = false)) ∧
    displayedDirection none = none ∧
    displayedConfidence none = 0 := by
  refine ⟨rfl, ?_, ?_, ?_, ?_, rfl, rfl⟩
  · simp [displayedDecision, jsOrNullS]
  all_goals
    by_cases hL : containsSub s "LONG" <;>
      by_cases hS : containsSub s "SHORT" <;>
        simp [displayedDirection, hL, hS]

/-- C10: every trade returned by GET /api/signal-history comes from a row
with type "TRADE" and status "CLOSED" (and carries status "CLOSED"); at
most 10 trades are returned, ordered by `created_at` descending; a null
stored profit becomes 0 and an absent pair defaults to "EUR/USD"; a
database error yields HTTP 500 with the error message and no trades
array. -/
theorem signalHistory_contract (tbl : List ExecRow) (e : String) :
    (∀ t ∈ responseTrades (signalHistoryGET (.ok tbl)),
        t.status = "CLOSED" ∧
        ∃ r ∈ tbl, r.ty = "TRADE" ∧ r.status = "CLOSED" ∧
          t = transformTrade r) ∧
    (responseTrades (signalHistoryGET (.ok tbl))).length ≤ 10 ∧
    (responseTrades (signalHistoryGET (.ok tbl))).Pairwise
      (fun a b => b.created_at ≤ a.created_at) ∧
    (∀ r : ExecRow, r.profit = none → (transformTrade r).profit = 0) ∧
    (∀ r : ExecRow, r.dataPair = none → r.dataSymbol = none →
        (transformTrade r).pair = "EUR/USD") ∧
    signalHistoryGET (.error e) = .err 500 e := by
  refine ⟨?_, ?_, ?_, ?_, ?_, rfl⟩
  · intro t ht
    simp only [signalHistoryGET, responseTrades, signalHistoryQuery] at ht
    rw [List.mem_map] at ht
    obtain ⟨r, hr, rfl⟩ := ht
    have hr2 : r ∈ tbl.filter matchesFilter :=
      mem_sortDesc (List.mem_of_mem_take hr)
    rw [List.mem_filter] at hr2
    obtain ⟨hrtbl, hmatch⟩ := hr2
    unfold matchesFilter at hmatch
    rw [Bool.and_eq_true, beq_iff_eq, beq_iff_eq] at hmatch
    obtain ⟨hty, hst⟩ := hmatch
    exact ⟨by simp [transformTrade, hst], r, hrtbl, hty, hst, rfl⟩
  · simp only [signalHistoryGET, responseTrades, signalHistoryQuery,
      List.length_map]
    exact List.length_take_le 10 _
  · simp only [signalHistoryGET, responseTrades, signalHistoryQuery]
    exact List.Pairwise.map transformTrade (fun a b hab => hab)
      (List.Pairwise.sublist (List.take_sublist 10 _) (pairwise_sortDesc _))
  · intro r h
    simp [transformTrade, jsOrQ, h]
  · intro r h1 h2
    simp [transformTrade, jsOrOptS, jsOrS, h1, h2]

/-- C10 witness: a row with null profit and no pair data is rendered with
profit 0 and pair "EUR/USD", and a database error "db down" is returned
as HTTP 500 with that message. -/
theorem signalHistory_contract_witness :
    (transformTrade
        ⟨1, 5, "TRADE", none, "CLOSED", none, none, none, none, none, none,
          none, none⟩).profit = 0 ∧
    (transformTrade
        ⟨1, 5, "TRADE", none, "CLOSED", none, none, none, none, none, none,
          none, none⟩).pair = "EUR/USD" ∧
    signalHistoryGET (.error "db down") = .err 500 "db down" :=
  ⟨(signalHistory_contract [] "db down").2.2.2.1 _ rfl,
    (signalHistory_contract [] "db down").2.2.2.2.1 _ rfl rfl,
    (signalHistory_contract [] "db down").2.2.2.2.2⟩

end Engine3V
